import Mathlib

/-! Shallow embedding of the OMX launcher self-update procedure
(`update_files` and its helpers in `main.py`) and of the requirements
reader `read_requirements`.

File contents are modelled by value as natural numbers; SHA-256 digests
are modelled as injective (digest equality iff byte equality), so a
digest is represented by the content it commits to.  The filesystem
state is a record with one field per path that `update_files` touches,
plus per-working-file write counters (a "write" is one executed
write-temp-then-rename on that path) and a counter of leftover download
temp files.  Python operations that may raise (`shutil.copyfile`,
`mkstemp`, file writes, `os.replace`, `os.remove`, `file_sha256`) are
modelled with explicit fault flags, and each `try`/`except` block of the
source becomes case analysis on those flags.  The bare `raise` at the
end of the rollback handler of `update_files` is modelled by the
distinguished outcome `Outcome.raised` (the exception propagates to the
caller `run_launcher`); the two early `return` paths get their own
outcome constructors. -/

namespace OMX

/-- File contents by value; a content value doubles as its own digest. -/
abbrev Content := Nat

/-- Fault flags for one call of `download_url_to_file` (main.py lines
148-186): success of `tempfile.mkstemp`, of writing the payload to the
temp file, of `os.replace`, of the best-effort `os.remove` in the
`except` handler, and of `file_sha256` on the existing destination. -/
structure DlFaults where
  mkstempOk : Bool := true
  writeOk : Bool := true
  replaceOk : Bool := true
  removeOk : Bool := true
  shaOk : Bool := true
deriving Repr, DecidableEq

/-- Result of one call of `download_url_to_file`: the returned boolean,
the destination file after the call, and whether a temp file created by
this call is left behind in the destination directory. -/
structure DlOut where
  ok : Bool
  dest : Option Content
  tmpLeft : Bool
deriving Repr, DecidableEq

/-- Embedding of `download_url_to_file` (main.py lines 148-186).
`fetch` is the result of the `urllib` request: `none` models an
exception from `urlopen`/`read` (caught, returns `False`), otherwise
the HTTP status and the payload.  If the destination exists and its
digest matches the payload's, the replace is skipped and `True` is
returned; otherwise the payload is written to a fresh temp file which
is promoted by `os.replace`.  Any exception in the write phase is
caught: the temp file (if created) is removed best-effort and `False`
is returned. -/
def download_url_to_file (fetch : Option (Nat × Content)) (fl : DlFaults)
    (dest : Option Content) : DlOut :=
  match fetch with
  | none => ⟨false, dest, false⟩
  | some (status, data) =>
    if status ≠ 200 then ⟨false, dest, false⟩
    else
      let identical := match dest with
        | some c => fl.shaOk && data == c
        | none => false
      if identical then ⟨true, dest, false⟩
      else if !fl.mkstempOk then ⟨false, dest, false⟩
      else if !fl.writeOk then ⟨false, dest, !fl.removeOk⟩
      else if !fl.replaceOk then ⟨false, dest, !fl.removeOk⟩
      else ⟨true, some data, false⟩

/-- Embedding of `safe_copy` (main.py lines 312-320): copy `src` over
`dst` via write-temp-then-rename.  Raises inside are caught: on a
missing source or a copy fault it returns `False` and leaves `dst`
untouched; on success it returns `True` and `dst` holds `src`'s
content. -/
def safe_copy (ok : Bool) (src dst : Option Content) : Bool × Option Content :=
  match src with
  | none => (false, dst)
  | some c => if ok then (true, some c) else (false, dst)

/-- Embedding of `restore_backup` (main.py lines 334-344) acting on one
working file: if the backup slot holds a file, `safe_copy` it over the
working path (the copy's own result is ignored by the source).  Returns
the working file and its write counter after the call. -/
def restore_backup (ok : Bool) (bak w : Option Content) (writes : Nat) :
    Option Content × Nat :=
  if bak.isSome then
    match safe_copy ok bak w with
    | (true, c) => (c, writes + 1)
    | (false, _) => (w, writes)
  else (w, writes)

/-- Response of one candidate digest URL inside
`try_download_optional_hash`: `miss` covers a network error, a non-200
status and a body with no 64-hex token (all of which `continue` to the
next candidate); `found h` is an extracted digest token, modelled by
the content it commits to. -/
inductive ShaResp where
  | miss
  | found (h : Content)
deriving Repr, DecidableEq

/-- Embedding of `try_download_optional_hash` (main.py lines 188-228):
try the `.sha256` then the `.sha256sum` sibling URL.  On the first
found token: fail if the local file is missing or `file_sha256` on it
fails, otherwise compare digests.  If neither URL yields a token, the
verification passes. -/
def try_download_optional_hash (r1 r2 : ShaResp) (localShaOk : Bool)
    (dest : Option Content) : Bool :=
  match r1 with
  | .found h =>
    match dest with
    | none => false
    | some c => localShaOk && h == c
  | .miss =>
    match r2 with
    | .found h =>
      match dest with
      | none => false
      | some c => localShaOk && h == c
    | .miss => true

/-- Embedding of `test_import_module_from_path` (main.py lines
347-363): load the file under the private module name
`omx_update_test` and report whether the load raised.  The load's
success is a function of the file's content only; the isolation of the
source (no entry is added to `sys.modules`, in particular not under the
name `app`) is reflected by the embedding having no effect on the
filesystem/module state. -/
def test_import_module_from_path (load : Content → Bool) (c : Content) : Bool :=
  load c

/-- Filesystem state seen by `update_files`: the three working files
(`BASE_DIR/requirements.txt`, `app.py`, `main.py`), their staging
copies in `UPDATE_DIR`, the two `.bak` backup slots, whether
`UPDATE_DIR` exists, one write counter per working file (each executed
write-temp-then-rename on that path counts one write), a counter of
leftover download temp files, and the running program's own loaded
`app` module (`sys.modules` entry), which the updater must never
replace. -/
structure FS where
  reqW : Option Content
  appW : Option Content
  mainW : Option Content
  reqS : Option Content
  appS : Option Content
  mainS : Option Content
  appBak : Option Content
  mainBak : Option Content
  updateDir : Bool
  reqWrites : Nat
  appWrites : Nat
  mainWrites : Nat
  tmpLeft : Nat
  loadedAppModule : Option Content
deriving Repr, DecidableEq

/-- External environment of one update cycle: connectivity probe
result, the three fetch results (as in `download_url_to_file`), the
four optional-digest URL responses, and the smoke-test load behaviour
as a function of the candidate file's content. -/
structure Env where
  internet : Bool
  reqFetch : Option (Nat × Content)
  appFetch : Option (Nat × Content)
  mainFetch : Option (Nat × Content)
  appSha1 : ShaResp
  appSha2 : ShaResp
  mainSha1 : ShaResp
  mainSha2 : ShaResp
  appLoad : Content → Bool

/-- Fault flags for the filesystem operations of one update cycle. -/
structure Faults where
  dlReq : DlFaults := {}
  dlApp : DlFaults := {}
  dlMain : DlFaults := {}
  copyReqOk : Bool := true
  copyAppOk : Bool := true
  copyMainOk : Bool := true
  appBackupOk : Bool := true
  mainBackupOk : Bool := true
  restoreAppOk : Bool := true
  restoreMainOk : Bool := true
  appLocalShaOk : Bool := true
  mainLocalShaOk : Bool := true

/-- Exit paths of `update_files`: `disabled` is the early return under
the `no_update` flag (line 371-373); `skippedNoNetwork` is the early
return when the probe fails and no local manifest exists (lines
394-401); `committed` reaches the success log (line 466); `raised`
models the bare `raise` of line 475 — the caught verification
exception propagates past `update_files` after the rollback attempt. -/
inductive Outcome where
  | disabled
  | skippedNoNetwork
  | committed
  | raised
deriving Repr, DecidableEq

/-- Requirements block of `update_files` (main.py lines 403-417):
download the manifest to staging when online, fall back to an existing
working manifest, and when the manifest is available and a staged copy
exists, `safe_copy` the staged copy over the working manifest (the
copy's result is ignored by the source). -/
def reqPhase (env : Env) (fl : Faults) (s : FS) : FS :=
  let dlR := if env.internet then download_url_to_file env.reqFetch fl.dlReq s.reqS
             else ⟨false, s.reqS, false⟩
  let s1 := { s with reqS := dlR.dest,
                     tmpLeft := s.tmpLeft + (if dlR.tmpLeft then 1 else 0) }
  let reqOk := dlR.ok || s1.reqW.isSome
  if reqOk && s1.reqS.isSome then
    match safe_copy fl.copyReqOk s1.reqS s1.reqW with
    | (true, c) => { s1 with reqW := c, reqWrites := s1.reqWrites + 1 }
    | (false, _) => s1
  else s1

/-- Code-download block of `update_files` (main.py lines 421-426):
when online, download `app.py` and `main.py` to staging independently;
returns the new state and the two download results. -/
def codeDownloadPhase (env : Env) (fl : Faults) (s : FS) : FS × Bool × Bool :=
  if env.internet then
    let dlA := download_url_to_file env.appFetch fl.dlApp s.appS
    let dlM := download_url_to_file env.mainFetch fl.dlMain s.mainS
    ({ s with appS := dlA.dest, mainS := dlM.dest,
              tmpLeft := s.tmpLeft + (if dlA.tmpLeft then 1 else 0)
                                   + (if dlM.tmpLeft then 1 else 0) },
     dlA.ok, dlM.ok)
  else (s, false, false)

/-- Backup block of `update_files` (main.py lines 432-436, through
`backup_file`, lines 322-332): for each working file that exists, copy
it to its `.bak` slot; a `copyfile` fault makes `backup_file` return
`None`.  Returns the state and, per file, whether a backup was made
(the truthiness of `app_backup` / `main_backup` in the source). -/
def backupPhase (fl : Faults) (s : FS) : FS × Bool × Bool :=
  let appMade := s.appW.isSome && fl.appBackupOk
  let s1 := if appMade then { s with appBak := s.appW } else s
  let mainMade := s1.mainW.isSome && fl.mainBackupOk
  let s2 := if mainMade then { s1 with mainBak := s1.mainW } else s1
  (s2, appMade, mainMade)

/-- Apply block of `update_files` (main.py lines 440-448): for each
eligible file whose staged copy exists, `safe_copy` the staged copy
over the working file; the copy's result is not checked by the
source. -/
def applyPhase (fl : Faults) (applyApp applyMain : Bool) (s : FS) : FS :=
  let s1 := if applyApp && s.appS.isSome then
      match safe_copy fl.copyAppOk s.appS s.appW with
      | (true, c) => { s with appW := c, appWrites := s.appWrites + 1 }
      | (false, _) => s
    else s
  if applyMain && s1.mainS.isSome then
    match safe_copy fl.copyMainOk s1.mainS s1.mainW with
    | (true, c) => { s1 with mainW := c, mainWrites := s1.mainWrites + 1 }
    | (false, _) => s1
  else s1

/-- Verification block of `update_files` (main.py lines 450-463): the
optional published-digest check for each working file that exists (only
when online), then the isolated import smoke test of the working
`app.py` when it exists.  All three checks are effect-free; the first
failure raises `RuntimeError`, so the block succeeds iff all pass. -/
def verifyPhase (env : Env) (fl : Faults) (s : FS) : Bool :=
  (if env.internet && s.appW.isSome then
     try_download_optional_hash env.appSha1 env.appSha2 fl.appLocalShaOk s.appW
   else true)
  && (if env.internet && s.mainW.isSome then
     try_download_optional_hash env.mainSha1 env.mainSha2 fl.mainLocalShaOk s.mainW
   else true)
  && (match s.appW with
      | some c => test_import_module_from_path env.appLoad c
      | none => true)

/-- Rollback block of `update_files` (main.py lines 467-474): for each
file whose backup was made this cycle, `restore_backup` it (restore
failures are logged and ignored). -/
def rollbackPhase (fl : Faults) (appMade mainMade : Bool) (s : FS) : FS :=
  let s1 := if appMade then
      let r := restore_backup fl.restoreAppOk s.appBak s.appW s.appWrites
      { s with appW := r.1, appWrites := r.2 }
    else s
  if mainMade then
    let r := restore_backup fl.restoreMainOk s1.mainBak s1.mainW s1.mainWrites
    { s1 with mainW := r.1, mainWrites := r.2 }
  else s1

/-- Embedding of `update_files` (main.py lines 366-480).  The flag
check precedes everything; `os.makedirs(UPDATE_DIR, exist_ok=True)`
precedes the connectivity probe; with no connectivity and no local
manifest the cycle returns early.  Otherwise: requirements block, code
downloads, the eligibility decision of lines 429-430, backups, apply,
verification, and on verification failure the rollback block followed
by the re-`raise`. -/
def update_files (env : Env) (fl : Faults) (noUpdate force : Bool) (s : FS) :
    Outcome × FS :=
  if noUpdate && !force then (.disabled, s)
  else
    let s0 := { s with updateDir := true }
    if !env.internet && s0.reqW.isNone then (.skippedNoNetwork, s0)
    else
      let s1 := reqPhase env fl s0
      let cd := codeDownloadPhase env fl s1
      let s2 := cd.1
      let appOk := cd.2.1
      let mainOk := cd.2.2
      let applyApp := appOk || force || (!env.internet && s2.appW.isSome)
      let applyMain := mainOk || force || (!env.internet && s2.mainW.isSome)
      let bk := backupPhase fl s2
      let s3 := bk.1
      let appMade := bk.2.1
      let mainMade := bk.2.2
      let s4 := applyPhase fl applyApp applyMain s3
      if verifyPhase env fl s4 then (.committed, s4)
      else (.raised, rollbackPhase fl appMade mainMade s4)

/-- Python's `str.strip` with no argument: drop leading and trailing
whitespace characters. -/
def py_strip (s : String) : String :=
  ⟨((s.data.dropWhile Char.isWhitespace).reverse.dropWhile Char.isWhitespace).reverse⟩

/-- Python's `str.startswith`, over the character data of the two
strings. -/
def py_startswith (p s : String) : Bool := p.data.isPrefixOf s.data

/-- Embedding of `read_requirements` (main.py lines 483-497): `none`
models a missing manifest (returns the empty list); otherwise strip
each line, drop blank lines and lines starting with a hash mark, then
skip requirement-file directive lines. -/
def read_requirements (file : Option (List String)) : List String :=
  match file with
  | none => []
  | some ls =>
    let lines := (ls.map py_strip).filter
      (fun l => !l.data.isEmpty && !(py_startswith "#" l))
    lines.filter
      (fun l => !(py_startswith "-r " l || py_startswith "--requirement" l))

/-- Environment of a cycle with connectivity, given fetch results, no
published digests, and the given smoke-test behaviour. -/
def onlineEnv (reqF appF mainF : Option (Nat × Content)) (load : Content → Bool) :
    Env :=
  { internet := true, reqFetch := reqF, appFetch := appF, mainFetch := mainF,
    appSha1 := .miss, appSha2 := .miss, mainSha1 := .miss, mainSha2 := .miss,
    appLoad := load }

section Helpers

variable (env : Env) (fl : Faults) (s : FS)

theorem dl_none (fl : DlFaults) (d : Option Content) :
    download_url_to_file none fl d = ⟨false, d, false⟩ := rfl

theorem dl_ok (c : Content) (d : Option Content) :
    download_url_to_file (some (200, c)) {} d = ⟨true, some c, false⟩ := by
  unfold download_url_to_file
  cases d with
  | none => simp
  | some x =>
    by_cases h : c = x
    · simp [h]
    · simp [h]

@[simp] theorem reqPhase_appW : (reqPhase env fl s).appW = s.appW := by
  simp only [reqPhase] <;> ((repeat' split) <;> rfl)

@[simp] theorem reqPhase_mainW : (reqPhase env fl s).mainW = s.mainW := by
  simp only [reqPhase] <;> ((repeat' split) <;> rfl)

@[simp] theorem reqPhase_appS : (reqPhase env fl s).appS = s.appS := by
  simp only [reqPhase] <;> ((repeat' split) <;> rfl)

@[simp] theorem reqPhase_mainS : (reqPhase env fl s).mainS = s.mainS := by
  simp only [reqPhase] <;> ((repeat' split) <;> rfl)

@[simp] theorem reqPhase_appBak : (reqPhase env fl s).appBak = s.appBak := by
  simp only [reqPhase] <;> ((repeat' split) <;> rfl)

@[simp] theorem reqPhase_mainBak : (reqPhase env fl s).mainBak = s.mainBak := by
  simp only [reqPhase] <;> ((repeat' split) <;> rfl)

@[simp] theorem reqPhase_updateDir : (reqPhase env fl s).updateDir = s.updateDir := by
  simp only [reqPhase] <;> ((repeat' split) <;> rfl)

@[simp] theorem reqPhase_appWrites : (reqPhase env fl s).appWrites = s.appWrites := by
  simp only [reqPhase] <;> ((repeat' split) <;> rfl)

@[simp] theorem reqPhase_mainWrites : (reqPhase env fl s).mainWrites = s.mainWrites := by
  simp only [reqPhase] <;> ((repeat' split) <;> rfl)

@[simp] theorem reqPhase_loadedAppModule :
    (reqPhase env fl s).loadedAppModule = s.loadedAppModule := by
  simp only [reqPhase] <;> ((repeat' split) <;> rfl)

@[simp] theorem codeDownloadPhase_reqW :
    (codeDownloadPhase env fl s).1.reqW = s.reqW := by
  simp only [codeDownloadPhase] <;> ((repeat' split) <;> rfl)

@[simp] theorem codeDownloadPhase_appW :
    (codeDownloadPhase env fl s).1.appW = s.appW := by
  simp only [codeDownloadPhase] <;> ((repeat' split) <;> rfl)

@[simp] theorem codeDownloadPhase_mainW :
    (codeDownloadPhase env fl s).1.mainW = s.mainW := by
  simp only [codeDownloadPhase] <;> ((repeat' split) <;> rfl)

@[simp] theorem codeDownloadPhase_appBak :
    (codeDownloadPhase env fl s).1.appBak = s.appBak := by
  simp only [codeDownloadPhase] <;> ((repeat' split) <;> rfl)

@[simp] theorem codeDownloadPhase_mainBak :
    (codeDownloadPhase env fl s).1.mainBak = s.mainBak := by
  simp only [codeDownloadPhase] <;> ((repeat' split) <;> rfl)

@[simp] theorem codeDownloadPhase_updateDir :
    (codeDownloadPhase env fl s).1.updateDir = s.updateDir := by
  simp only [codeDownloadPhase] <;> ((repeat' split) <;> rfl)

@[simp] theorem codeDownloadPhase_reqWrites :
    (codeDownloadPhase env fl s).1.reqWrites = s.reqWrites := by
  simp only [codeDownloadPhase] <;> ((repeat' split) <;> rfl)

@[simp] theorem codeDownloadPhase_appWrites :
    (codeDownloadPhase env fl s).1.appWrites = s.appWrites := by
  simp only [codeDownloadPhase] <;> ((repeat' split) <;> rfl)

@[simp] theorem codeDownloadPhase_mainWrites :
    (codeDownloadPhase env fl s).1.mainWrites = s.mainWrites := by
  simp only [codeDownloadPhase] <;> ((repeat' split) <;> rfl)

@[simp] theorem codeDownloadPhase_loadedAppModule :
    (codeDownloadPhase env fl s).1.loadedAppModule = s.loadedAppModule := by
  simp only [codeDownloadPhase] <;> ((repeat' split) <;> rfl)

@[simp] theorem backupPhase_reqW : (backupPhase fl s).1.reqW = s.reqW := by
  simp only [backupPhase] <;> ((repeat' split) <;> rfl)

@[simp] theorem backupPhase_appW : (backupPhase fl s).1.appW = s.appW := by
  simp only [backupPhase] <;> ((repeat' split) <;> rfl)

@[simp] theorem backupPhase_mainW : (backupPhase fl s).1.mainW = s.mainW := by
  simp only [backupPhase] <;> ((repeat' split) <;> rfl)

@[simp] theorem backupPhase_reqS : (backupPhase fl s).1.reqS = s.reqS := by
  simp only [backupPhase] <;> ((repeat' split) <;> rfl)

@[simp] theorem backupPhase_appS : (backupPhase fl s).1.appS = s.appS := by
  simp only [backupPhase] <;> ((repeat' split) <;> rfl)

@[simp] theorem backupPhase_mainS : (backupPhase fl s).1.mainS = s.mainS := by
  simp only [backupPhase] <;> ((repeat' split) <;> rfl)

@[simp] theorem backupPhase_updateDir : (backupPhase fl s).1.updateDir = s.updateDir := by
  simp only [backupPhase] <;> ((repeat' split) <;> rfl)

@[simp] theorem backupPhase_reqWrites : (backupPhase fl s).1.reqWrites = s.reqWrites := by
  simp only [backupPhase] <;> ((repeat' split) <;> rfl)

@[simp] theorem backupPhase_appWrites : (backupPhase fl s).1.appWrites = s.appWrites := by
  simp only [backupPhase] <;> ((repeat' split) <;> rfl)

@[simp] theorem backupPhase_mainWrites : (backupPhase fl s).1.mainWrites = s.mainWrites := by
  simp only [backupPhase] <;> ((repeat' split) <;> rfl)

@[simp] theorem backupPhase_tmpLeft : (backupPhase fl s).1.tmpLeft = s.tmpLeft := by
  simp only [backupPhase] <;> ((repeat' split) <;> rfl)

@[simp] theorem backupPhase_loadedAppModule :
    (backupPhase fl s).1.loadedAppModule = s.loadedAppModule := by
  simp only [backupPhase] <;> ((repeat' split) <;> rfl)

@[simp] theorem backupPhase_appMade :
    (backupPhase fl s).2.1 = (s.appW.isSome && fl.appBackupOk) := by
  simp only [backupPhase] <;> ((repeat' split) <;> rfl)

@[simp] theorem backupPhase_mainMade :
    (backupPhase fl s).2.2 = (s.mainW.isSome && fl.mainBackupOk) := by
  simp only [backupPhase] <;> ((repeat' split) <;> rfl)

@[simp] theorem backupPhase_appBak :
    (backupPhase fl s).1.appBak =
      if s.appW.isSome && fl.appBackupOk then s.appW else s.appBak := by
  simp only [backupPhase]
  (repeat' split) <;> simp_all

@[simp] theorem backupPhase_mainBak :
    (backupPhase fl s).1.mainBak =
      if s.mainW.isSome && fl.mainBackupOk then s.mainW else s.mainBak := by
  simp only [backupPhase]
  (repeat' split) <;> simp_all

variable (aA aM : Bool)

@[simp] theorem applyPhase_reqW : (applyPhase fl aA aM s).reqW = s.reqW := by
  simp only [applyPhase] <;> ((repeat' split) <;> rfl)

@[simp] theorem applyPhase_reqS : (applyPhase fl aA aM s).reqS = s.reqS := by
  simp only [applyPhase] <;> ((repeat' split) <;> rfl)

@[simp] theorem applyPhase_appS : (applyPhase fl aA aM s).appS = s.appS := by
  simp only [applyPhase] <;> ((repeat' split) <;> rfl)

@[simp] theorem applyPhase_mainS : (applyPhase fl aA aM s).mainS = s.mainS := by
  simp only [applyPhase] <;> ((repeat' split) <;> rfl)

@[simp] theorem applyPhase_appBak : (applyPhase fl aA aM s).appBak = s.appBak := by
  simp only [applyPhase] <;> ((repeat' split) <;> rfl)

@[simp] theorem applyPhase_mainBak : (applyPhase fl aA aM s).mainBak = s.mainBak := by
  simp only [applyPhase] <;> ((repeat' split) <;> rfl)

@[simp] theorem applyPhase_updateDir : (applyPhase fl aA aM s).updateDir = s.updateDir := by
  simp only [applyPhase] <;> ((repeat' split) <;> rfl)

@[simp] theorem applyPhase_reqWrites : (applyPhase fl aA aM s).reqWrites = s.reqWrites := by
  simp only [applyPhase] <;> ((repeat' split) <;> rfl)

@[simp] theorem applyPhase_tmpLeft : (applyPhase fl aA aM s).tmpLeft = s.tmpLeft := by
  simp only [applyPhase] <;> ((repeat' split) <;> rfl)

@[simp] theorem applyPhase_loadedAppModule :
    (applyPhase fl aA aM s).loadedAppModule = s.loadedAppModule := by
  simp only [applyPhase] <;> ((repeat' split) <;> rfl)

@[simp] theorem applyPhase_appW :
    (applyPhase fl aA aM s).appW =
      if aA && s.appS.isSome && fl.copyAppOk then s.appS else s.appW := by
  simp only [applyPhase, safe_copy]
  cases hS : s.appS <;> (repeat' split) <;> simp_all

@[simp] theorem applyPhase_mainW :
    (applyPhase fl aA aM s).mainW =
      if aM && s.mainS.isSome && fl.copyMainOk then s.mainS else s.mainW := by
  simp only [applyPhase, safe_copy]
  cases hS : s.mainS <;> cases hA : s.appS <;> (repeat' split) <;> simp_all

@[simp] theorem applyPhase_appWrites :
    (applyPhase fl aA aM s).appWrites =
      if aA && s.appS.isSome && fl.copyAppOk then s.appWrites + 1
      else s.appWrites := by
  simp only [applyPhase, safe_copy]
  cases hS : s.appS <;> (repeat' split) <;> simp_all

@[simp] theorem applyPhase_mainWrites :
    (applyPhase fl aA aM s).mainWrites =
      if aM && s.mainS.isSome && fl.copyMainOk then s.mainWrites + 1
      else s.mainWrites := by
  simp only [applyPhase, safe_copy]
  cases hS : s.mainS <;> cases hA : s.appS <;> (repeat' split) <;> simp_all

@[simp] theorem rollbackPhase_reqW : (rollbackPhase fl aA aM s).reqW = s.reqW := by
  simp only [rollbackPhase, restore_backup] <;> ((repeat' split) <;> rfl)

@[simp] theorem rollbackPhase_reqS : (rollbackPhase fl aA aM s).reqS = s.reqS := by
  simp only [rollbackPhase, restore_backup] <;> ((repeat' split) <;> rfl)

@[simp] theorem rollbackPhase_appS : (rollbackPhase fl aA aM s).appS = s.appS := by
  simp only [rollbackPhase, restore_backup] <;> ((repeat' split) <;> rfl)

@[simp] theorem rollbackPhase_mainS : (rollbackPhase fl aA aM s).mainS = s.mainS := by
  simp only [rollbackPhase, restore_backup] <;> ((repeat' split) <;> rfl)

@[simp] theorem rollbackPhase_appBak : (rollbackPhase fl aA aM s).appBak = s.appBak := by
  simp only [rollbackPhase, restore_backup] <;> ((repeat' split) <;> rfl)

@[simp] theorem rollbackPhase_mainBak : (rollbackPhase fl aA aM s).mainBak = s.mainBak := by
  simp only [rollbackPhase, restore_backup] <;> ((repeat' split) <;> rfl)

@[simp] theorem rollbackPhase_updateDir :
    (rollbackPhase fl aA aM s).updateDir = s.updateDir := by
  simp only [rollbackPhase, restore_backup] <;> ((repeat' split) <;> rfl)

@[simp] theorem rollbackPhase_tmpLeft : (rollbackPhase fl aA aM s).tmpLeft = s.tmpLeft := by
  simp only [rollbackPhase, restore_backup] <;> ((repeat' split) <;> rfl)

@[simp] theorem rollbackPhase_loadedAppModule :
    (rollbackPhase fl aA aM s).loadedAppModule = s.loadedAppModule := by
  simp only [rollbackPhase, restore_backup] <;> ((repeat' split) <;> rfl)

@[simp] theorem rollbackPhase_appW :
    (rollbackPhase fl aA aM s).appW =
      if aA && s.appBak.isSome && fl.restoreAppOk then s.appBak else s.appW := by
  simp only [rollbackPhase, restore_backup, safe_copy]
  cases hB : s.appBak <;> (repeat' split) <;> simp_all

@[simp] theorem rollbackPhase_mainW :
    (rollbackPhase fl aA aM s).mainW =
      if aM && s.mainBak.isSome && fl.restoreMainOk then s.mainBak else s.mainW := by
  simp only [rollbackPhase, restore_backup, safe_copy]
  cases hB : s.mainBak <;> cases hA : s.appBak <;> (repeat' split) <;> simp_all

@[simp] theorem codeDownloadPhase_appS :
    (codeDownloadPhase env fl s).1.appS =
      if env.internet then (download_url_to_file env.appFetch fl.dlApp s.appS).dest
      else s.appS := by
  simp only [codeDownloadPhase] <;> ((repeat' split) <;> simp_all)

@[simp] theorem codeDownloadPhase_mainS :
    (codeDownloadPhase env fl s).1.mainS =
      if env.internet then (download_url_to_file env.mainFetch fl.dlMain s.mainS).dest
      else s.mainS := by
  simp only [codeDownloadPhase] <;> ((repeat' split) <;> simp_all)

@[simp] theorem codeDownloadPhase_appOk :
    (codeDownloadPhase env fl s).2.1 =
      if env.internet then (download_url_to_file env.appFetch fl.dlApp s.appS).ok
      else false := by
  simp only [codeDownloadPhase] <;> ((repeat' split) <;> simp_all)

@[simp] theorem codeDownloadPhase_mainOk :
    (codeDownloadPhase env fl s).2.2 =
      if env.internet then (download_url_to_file env.mainFetch fl.dlMain s.mainS).ok
      else false := by
  simp only [codeDownloadPhase] <;> ((repeat' split) <;> simp_all)

@[simp] theorem try_hash_miss_miss (lk : Bool) (d : Option Content) :
    try_download_optional_hash .miss .miss lk d = true := rfl

end Helpers

/-- Initial filesystem state with no files, no staging directory and
zeroed counters, used for concrete runs. -/
def fs0 : FS :=
  { reqW := none, appW := none, mainW := none, reqS := none, appS := none,
    mainS := none, appBak := none, mainBak := none, updateDir := false,
    reqWrites := 0, appWrites := 0, mainWrites := 0, tmpLeft := 0,
    loadedAppModule := none }

/-- C8: on the manifest whose lines are "# comment", "", "requests>=2",
"-r other.txt", "httpx", the reader returns exactly "requests>=2" and
"httpx": blank lines and hash-prefixed lines are dropped, and
requirement-file directive lines are skipped. -/
theorem C8_manifest_parsing :
    read_requirements
        (some [ "# comment", "", "requests>=2", "-r other.txt", "httpx" ]) =
      [ "requests>=2", "httpx" ] := by
  decide

/-- C9 counterexample: a call of `download_url_to_file` in which the
payload write to the temp file raises and the best-effort `os.remove`
of that temp file also raises returns `False` with the destination
untouched, but leaves its temp file on disk — refuting the claim that
every `False`-returning call removes any temporary file it created. -/
theorem C9_counterexample :
    download_url_to_file (some (200, 7))
        { writeOk := false, removeOk := false } (some 3) =
      ⟨false, some 3, true⟩ := by
  decide

/-- C9 as amended: every `False`-returning call of
`download_url_to_file` raises no exception (the embedding returns a
value on every fault combination), leaves the destination file's
content exactly as it was, and removes any temp file it created
whenever the removal primitive itself succeeds (removal is best-effort:
see the counterexample for the doubly-failed case). -/
theorem C9_amended (fetch : Option (Nat × Content)) (fl : DlFaults)
    (d : Option Content)
    (h : (download_url_to_file fetch fl d).ok = false) :
    (download_url_to_file fetch fl d).dest = d ∧
      (fl.removeOk = true → (download_url_to_file fetch fl d).tmpLeft = false) := by
  rcases fetch with _ | ⟨st, data⟩
  · exact ⟨rfl, fun _ => rfl⟩
  · by_cases h200 : st = 200
    · subst h200
      rcases d with _ | c
      · unfold download_url_to_file at h ⊢
        cases hm : fl.mkstempOk <;> cases hw : fl.writeOk <;>
          cases hr : fl.replaceOk <;> cases ho : fl.removeOk <;> simp_all
      · by_cases hd : data = c
        · subst hd
          unfold download_url_to_file at h ⊢
          cases hs : fl.shaOk <;> cases hm : fl.mkstempOk <;>
            cases hw : fl.writeOk <;> cases hr : fl.replaceOk <;>
            cases ho : fl.removeOk <;> simp_all
        · unfold download_url_to_file at h ⊢
          cases hs : fl.shaOk <;> cases hm : fl.mkstempOk <;>
            cases hw : fl.writeOk <;> cases hr : fl.replaceOk <;>
            cases ho : fl.removeOk <;> simp_all [hd]
    · unfold download_url_to_file at h ⊢
      simp_all [h200]

/-- C9 amended witness: the network-error call at concrete input
returns `False`, keeps the destination and leaves no temp file. -/
theorem C9_amended_witness :
    (download_url_to_file none {} (some 5)).ok = false ∧
      ((download_url_to_file none {} (some 5)).dest = some 5 ∧
        (({} : DlFaults).removeOk = true →
          (download_url_to_file none {} (some 5)).tmpLeft = false)) :=
  ⟨by decide, C9_amended none {} (some 5) (by decide)⟩

/-- Environment of a cycle whose connectivity probe fails; the fetch
fields are irrelevant (never consulted on the offline paths exercised
here). -/
def offlineEnv : Env :=
  { internet := false, reqFetch := none, appFetch := none, mainFetch := none,
    appSha1 := .miss, appSha2 := .miss, mainSha1 := .miss, mainSha2 := .miss,
    appLoad := fun _ => true }

/-- C1 counterexample: a cycle with connectivity in which the smoke
test of the applied app.py raises ends in `Outcome.raised` — the
`except` block of `update_files` performs the rollback and then
re-raises with a bare `raise` (main.py line 475), so the exception
propagates past `update_files` to `run_launcher`, and no `rolled_back`
outcome value is returned, refuting the no-propagation part of the
claim. -/
theorem C1_counterexample :
    (update_files
        (onlineEnv (some (200, 9)) (some (200, 2)) (some (200, 3)) (fun _ => false))
        {} false false { fs0 with appW := some 1, mainW := some 4 }).1 =
      Outcome.raised := by
  decide

/-- C1 as amended: whenever the cycle ends on the exception path
(`Outcome.raised`), then per file, independently: every working file
that existed, was successfully backed up this cycle and whose restore
copy succeeds holds exactly its pre-cycle content afterwards; but the
caught exception is re-raised past `update_files` (modelled by the
`raised` outcome itself) instead of a normal `rolled_back` return. -/
theorem C1_amended (env : Env) (fl : Faults) (force : Bool) (s : FS)
    (h : (update_files env fl false force s).1 = Outcome.raised) :
    (s.appW.isSome = true → fl.appBackupOk = true → fl.restoreAppOk = true →
        (update_files env fl false force s).2.appW = s.appW) ∧
      (s.mainW.isSome = true → fl.mainBackupOk = true →
        fl.restoreMainOk = true →
        (update_files env fl false force s).2.mainW = s.mainW) := by
  simp only [update_files] at h ⊢
  split at h
  · simp_all
  · split at h
    · simp_all
    · split at h
      · simp_all
      · refine ⟨fun h1 h2 h3 => ?_, fun h1 h2 h3 => ?_⟩ <;> split <;> simp_all

/-- C1 amended witness: concrete failing cycle, per-file restoration. -/
theorem C1_amended_witness :
    (update_files
          (onlineEnv (some (200, 9)) (some (200, 2)) (some (200, 3)) (fun _ => false))
          {} false false { fs0 with appW := some 1, mainW := some 4 }).1 =
        Outcome.raised ∧
      ((({ fs0 with appW := some 1, mainW := some 4 } : FS).appW.isSome = true →
          ({} : Faults).appBackupOk = true → ({} : Faults).restoreAppOk = true →
          (update_files
            (onlineEnv (some (200, 9)) (some (200, 2)) (some (200, 3)) (fun _ => false))
            {} false false { fs0 with appW := some 1, mainW := some 4 }).2.appW =
            some 1) ∧
        (({ fs0 with appW := some 1, mainW := some 4 } : FS).mainW.isSome = true →
          ({} : Faults).mainBackupOk = true → ({} : Faults).restoreMainOk = true →
          (update_files
            (onlineEnv (some (200, 9)) (some (200, 2)) (some (200, 3)) (fun _ => false))
            {} false false { fs0 with appW := some 1, mainW := some 4 }).2.mainW =
            some 4)) :=
  ⟨by decide,
   C1_amended _ _ _ _ (by decide)⟩

/-- C2 counterexample: the backup of app.py fails
(`fl.appBackupOk = false`, so `backup_file` returns `None`), yet the
apply step still overwrites the working app.py with the staged content
and the cycle commits with no backup on disk — refuting the claim that
a backup failure aborts that file's apply. -/
theorem C2_counterexample :
    let r := update_files
        (onlineEnv (some (200, 9)) (some (200, 2)) none (fun _ => true))
        { appBackupOk := false } false false { fs0 with appW := some 1 }
    r.1 = Outcome.committed ∧ r.2.appW = some 2 ∧ r.2.appBak = none := by
  decide

/-- C2 as amended: for every cycle that reaches the backup step (ends
in `committed` or `raised`), each working file that existed and whose
backup copy succeeded has its pre-overwrite content in its backup slot
when the cycle ends (the slot is written before any overwrite and
never cleared); but a backup failure does not abort the apply — the
working file is overwritten regardless (see the counterexample). -/
theorem C2_amended (env : Env) (fl : Faults) (force : Bool) (s : FS)
    (h : (update_files env fl false force s).1 = Outcome.committed ∨
      (update_files env fl false force s).1 = Outcome.raised) :
    (fl.appBackupOk = true → s.appW.isSome = true →
        (update_files env fl false force s).2.appBak = s.appW) ∧
      (fl.mainBackupOk = true → s.mainW.isSome = true →
        (update_files env fl false force s).2.mainBak = s.mainW) := by
  simp only [update_files] at h ⊢
  split at h
  · simp_all
  · split at h
    · simp_all
    · split at h <;>
        (refine ⟨fun hb hw => ?_, fun hb hw => ?_⟩ <;> split <;> simp_all)

/-- C2 amended witness: concrete committing cycle with both backups. -/
theorem C2_amended_witness :
    ((update_files
          (onlineEnv (some (200, 9)) (some (200, 2)) (some (200, 3)) (fun _ => true))
          {} false false { fs0 with appW := some 1, mainW := some 4 }).1 =
          Outcome.committed ∨
        (update_files
          (onlineEnv (some (200, 9)) (some (200, 2)) (some (200, 3)) (fun _ => true))
          {} false false { fs0 with appW := some 1, mainW := some 4 }).1 =
          Outcome.raised) ∧
      ((({} : Faults).appBackupOk = true →
          ({ fs0 with appW := some 1, mainW := some 4 } : FS).appW.isSome = true →
          (update_files
            (onlineEnv (some (200, 9)) (some (200, 2)) (some (200, 3)) (fun _ => true))
            {} false false { fs0 with appW := some 1, mainW := some 4 }).2.appBak =
            some 1) ∧
        (({} : Faults).mainBackupOk = true →
          ({ fs0 with appW := some 1, mainW := some 4 } : FS).mainW.isSome = true →
          (update_files
            (onlineEnv (some (200, 9)) (some (200, 2)) (some (200, 3)) (fun _ => true))
            {} false false { fs0 with appW := some 1, mainW := some 4 }).2.mainBak =
            some 4)) :=
  ⟨Or.inl (by decide),
   C2_amended _ _ _ _ (Or.inl (by decide))⟩

/-- C3, code evaluated at the failing input: the staged manifest and
the working manifest are byte-identical (digest match, both content
5), yet the cycle performs one write-temp-then-rename on the working
manifest (`reqWrites` goes from 0 to 1): the identical-digest skip of
`download_url_to_file` only protects the staging copy, and the
unconditional `safe_copy(req_path, REQ_FILE)` of main.py line 416
rewrites the working file, contrary to the comment right above it. -/
theorem C3_code_bug_eval :
    (update_files (onlineEnv (some (200, 5)) none none (fun _ => true))
        {} false false { fs0 with reqW := some 5, reqS := some 5 }).1 =
        Outcome.committed ∧
      (update_files (onlineEnv (some (200, 5)) none none (fun _ => true))
        {} false false { fs0 with reqW := some 5, reqS := some 5 }).2.reqW =
        some 5 ∧
      (update_files (onlineEnv (some (200, 5)) none none (fun _ => true))
        {} false false { fs0 with reqW := some 5, reqS := some 5 }).2.reqWrites =
        1 := by
  decide

/-- C4: with connectivity, when the freshly applied app.py (the
"main"-role file: the one the launcher subsequently loads and runs)
raises on its isolated smoke-test load, the failure is caught and
treated as a verification failure: the cycle ends on the rollback path,
the working file holds its pre-cycle content again, its backup remains
on disk, and the running program's own loaded `app` module is never
replaced (the test loads under the private name `omx_update_test`). -/
theorem C4_smoke_rollback (a b creq cmain : Content) (load : Content → Bool)
    (hload : load b = false) (s : FS) (hA : s.appW = some a) :
    let r := update_files
        (onlineEnv (some (200, creq)) (some (200, b)) (some (200, cmain)) load)
        {} false false s
    r.1 = Outcome.raised ∧ r.2.appW = some a ∧ r.2.appBak = some a ∧
      r.2.loadedAppModule = s.loadedAppModule := by
  simp [update_files, onlineEnv, verifyPhase, test_import_module_from_path,
        dl_ok, hA, hload]

/-- C4 witness at concrete input. -/
theorem C4_smoke_rollback_witness :
    ((fun _ : Content => false) 2 = false) ∧
      (({ fs0 with appW := some 1 } : FS).appW = some 1) ∧
      (let r := update_files
          (onlineEnv (some (200, 9)) (some (200, 2)) (some (200, 3))
            (fun _ => false))
          {} false false { fs0 with appW := some 1 }
       r.1 = Outcome.raised ∧ r.2.appW = some 1 ∧ r.2.appBak = some 1 ∧
        r.2.loadedAppModule = ({ fs0 with appW := some 1 } : FS).loadedAppModule) :=
  ⟨rfl, rfl,
   C4_smoke_rollback 1 2 9 3 (fun _ => false) rfl { fs0 with appW := some 1 } rfl⟩

/-- C5 counterexample: with connectivity, the app.py download fails
(network error) and the main.py download succeeds (staging holds the
fetched content 3) and main's own verification passes (no published
digest); yet the pre-existing working app.py's content fails its smoke
test, the cycle ends on the rollback path, and the working main.py is
reverted to its pre-cycle content 4 — so the successful file's apply
did NOT proceed subject only to its own verification. -/
theorem C5_counterexample :
    let r := update_files
        (onlineEnv (some (200, 9)) none (some (200, 3)) (fun _ => false))
        {} false false { fs0 with appW := some 1, mainW := some 4 }
    r.1 = Outcome.raised ∧ r.2.mainS = some 3 ∧ r.2.mainW = some 4 := by
  decide

/-- C5 as amended: with connectivity, when the app.py download fails
and the main.py download succeeds, the working app.py ends the cycle
with exactly its pre-cycle content (it is never eligible for apply,
and a rollback restore only re-copies its own pre-cycle backup); the
working main.py holds the downloaded content when the cycle commits,
but the successful file is subject to the whole cycle's verification,
not only its own: when any verification step fails — including the
smoke test of the existing, never-applied working app.py — a
pre-existing main.py is rolled back to its pre-cycle content. -/
theorem C5_amended (cm creq : Content) (load : Content → Bool) (s : FS) :
    let r := update_files (onlineEnv (some (200, creq)) none (some (200, cm)) load)
        {} false false s
    r.2.appW = s.appW ∧ (r.1 = Outcome.committed → r.2.mainW = some cm) ∧
      (r.1 = Outcome.raised → s.mainW.isSome = true → r.2.mainW = s.mainW) := by
  simp only [update_files, onlineEnv]
  refine ⟨?_, ?_, ?_⟩
  · split
    · simp_all
    · split
      · simp_all
      · split <;> cases hA : s.appW <;> simp_all [dl_none, dl_ok]
  · split
    · simp_all
    · split
      · simp_all
      · split
        · intro _
          simp_all [dl_ok]
        · intro hc
          simp_all
  · split
    · simp_all
    · split
      · simp_all
      · split
        · intro hc
          simp_all
        · intro _ hM
          cases hMm : s.mainW <;> simp_all [dl_none, dl_ok]

/-- C5 amended witness at concrete input. -/
theorem C5_amended_witness :
    let r := update_files
        (onlineEnv (some (200, 9)) none (some (200, 3)) (fun _ => true))
        {} false false { fs0 with appW := some 1, mainW := some 4 }
    r.2.appW = ({ fs0 with appW := some 1, mainW := some 4 } : FS).appW ∧
      (r.1 = Outcome.committed → r.2.mainW = some 3) ∧
      (r.1 = Outcome.raised →
        ({ fs0 with appW := some 1, mainW := some 4 } : FS).mainW.isSome = true →
        r.2.mainW = ({ fs0 with appW := some 1, mainW := some 4 } : FS).mainW) :=
  C5_amended 3 9 (fun _ => true) { fs0 with appW := some 1, mainW := some 4 }

/-- C6 counterexample: offline with no working manifest, the cycle
does return early on the no-network path, but it has already run
`os.makedirs(UPDATE_DIR, exist_ok=True)` (main.py line 375), so the
filesystem is mutated beyond the log append: the staging directory now
exists. -/
theorem C6_counterexample :
    let r := update_files offlineEnv {} false false fs0
    r.1 = Outcome.skippedNoNetwork ∧ r.2 ≠ fs0 ∧ r.2.updateDir = true := by
  decide

/-- C6 as amended: if the connectivity probe fails and no working
manifest exists, the cycle aborts with the no-network outcome and the
only filesystem mutation beyond the log append is the creation of the
staging directory (which precedes the probe). -/
theorem C6_amended (env : Env) (fl : Faults) (force : Bool) (s : FS)
    (hI : env.internet = false) (hR : s.reqW = none) :
    update_files env fl false force s =
      (Outcome.skippedNoNetwork, { s with updateDir := true }) := by
  simp [update_files, hI, hR]

/-- C6 amended witness at concrete input. -/
theorem C6_amended_witness :
    offlineEnv.internet = false ∧ fs0.reqW = none ∧
      update_files offlineEnv {} false false fs0 =
        (Outcome.skippedNoNetwork, { fs0 with updateDir := true }) :=
  ⟨rfl, rfl, C6_amended offlineEnv {} false fs0 rfl rfl⟩

/-- Characterization of a fault-free online cycle whose three fetches
succeed with status 200 and whose applied app.py loads cleanly: the
cycle commits, staging and working files all hold the fetched contents,
each working file receives exactly one write, and each pre-existing
working file's content sits in its backup slot. -/
theorem run_clean (creq capp cmain : Content) (load : Content → Bool)
    (h : load capp = true) (s : FS) :
    update_files
        (onlineEnv (some (200, creq)) (some (200, capp)) (some (200, cmain)) load)
        {} false false s =
      (Outcome.committed,
        { s with updateDir := true,
                 reqS := some creq, reqW := some creq,
                 reqWrites := s.reqWrites + 1,
                 appS := some capp, appW := some capp,
                 appWrites := s.appWrites + 1,
                 mainS := some cmain, mainW := some cmain,
                 mainWrites := s.mainWrites + 1,
                 appBak := if s.appW.isSome then s.appW else s.appBak,
                 mainBak := if s.mainW.isSome then s.mainW else s.mainBak }) := by
  cases hA : s.appW <;> cases hM : s.mainW <;>
    simp [update_files, reqPhase, codeDownloadPhase, backupPhase, applyPhase,
          verifyPhase, rollbackPhase, onlineEnv, dl_ok, safe_copy,
          test_import_module_from_path, h, hA, hM]

/-- C7 counterexample: running the cycle twice against an unchanged
remote origin, the second run still performs a write-temp-then-rename
on the working app.py (its write counter increases) and ends on the
same generic commit path — the code has no `no_update_needed` outcome
and does not skip the copy to the working file, refuting the
zero-writes claim. -/
theorem C7_counterexample :
    let e := onlineEnv (some (200, 1)) (some (200, 2)) (some (200, 3))
      (fun _ => true)
    let s1 := (update_files e {} false false fs0).2
    let r2 := update_files e {} false false s1
    r2.1 = Outcome.committed ∧ r2.2.appWrites = s1.appWrites + 1 ∧
      r2.2.appW = s1.appW := by
  decide

/-- C7 as amended: the second of two consecutive fault-free cycles
against an unchanged remote origin is idempotent in content — it
commits and leaves every working file byte-identical to the first
run's result — but it re-copies the identical staged bytes over each
working file (one more write per working file) and reports the same
generic commit outcome; the code has no distinct `no_update_needed`
outcome. -/
theorem C7_amended (creq capp cmain : Content) (load : Content → Bool)
    (h : load capp = true) (s : FS) :
    let e := onlineEnv (some (200, creq)) (some (200, capp)) (some (200, cmain))
      load
    let s1 := (update_files e {} false false s).2
    let r2 := update_files e {} false false s1
    r2.1 = Outcome.committed ∧ r2.2.reqW = s1.reqW ∧ r2.2.appW = s1.appW ∧
      r2.2.mainW = s1.mainW ∧ r2.2.appWrites = s1.appWrites + 1 ∧
      r2.2.mainWrites = s1.mainWrites + 1 := by
  simp only [run_clean creq capp cmain load h]
  simp

/-- C7 amended witness at concrete input. -/
theorem C7_amended_witness :
    ((fun _ : Content => true) 2 = true) ∧
      (let e := onlineEnv (some (200, 1)) (some (200, 2)) (some (200, 3))
        (fun _ => true)
       let s1 := (update_files e {} false false fs0).2
       let r2 := update_files e {} false false s1
       r2.1 = Outcome.committed ∧ r2.2.reqW = s1.reqW ∧ r2.2.appW = s1.appW ∧
        r2.2.mainW = s1.mainW ∧ r2.2.appWrites = s1.appWrites + 1 ∧
        r2.2.mainWrites = s1.mainWrites + 1) :=
  ⟨rfl, C7_amended 1 2 3 (fun _ => true) rfl fs0⟩

/-- C10: when the working app.py did not exist before the cycle, no
backup is created for it (`backup_file` is only called behind an
existence check and the backup slot is untouched), and a smoke-test
failure still triggers the rollback path — but rollback only restores
files whose backup was made, so the freshly applied, unverified app.py
remains on disk when the cycle ends. -/
theorem C10_unverified_file_remains (b creq cmain : Content)
    (load : Content → Bool) (hload : load b = false) (s : FS)
    (hA : s.appW = none) :
    let r := update_files
        (onlineEnv (some (200, creq)) (some (200, b)) (some (200, cmain)) load)
        {} false false s
    r.1 = Outcome.raised ∧ r.2.appW = some b ∧ r.2.appBak = s.appBak := by
  simp [update_files, onlineEnv, verifyPhase, test_import_module_from_path,
        dl_ok, hA, hload]

/-- C10 witness at concrete input. -/
theorem C10_unverified_file_remains_witness :
    ((fun _ : Content => false) 2 = false) ∧ (fs0.appW = none) ∧
      (let r := update_files
          (onlineEnv (some (200, 9)) (some (200, 2)) (some (200, 3))
            (fun _ => false))
          {} false false fs0
       r.1 = Outcome.raised ∧ r.2.appW = some 2 ∧ r.2.appBak = fs0.appBak) :=
  ⟨rfl, rfl, C10_unverified_file_remains 2 9 3 (fun _ => false) rfl fs0 rfl⟩

end OMX
